import Mathlib

/-
Shallow embedding of playwright/network.py (Request, Route, Response and the
header codec), together with models of the external collaborators it calls
into: the Python dict (insertion-ordered, unique keys), base64 from the
base64 module, UTF-8 encode/decode from str.encode and bytes.decode,
urllib.parse.parse_qsl, mimetypes.guess_type, the filesystem read used by
Route.fulfill, and the remote channel. Bytes are Lists of Nat below 256.
-/

namespace PW

/-- Wire-form header entry, the source dict with keys name and value that
serialize_headers emits and parse_headers consumes. -/
structure Header where
  name : String
  value : String
deriving DecidableEq

/-- API-form header mapping: a Python dict from names to values, modelled as
an insertion-ordered association list with unique keys. -/
abbrev PyDict := List (String × String)

/-- Python dict read d[k] made total: first (hence only) binding of k, none
when k is absent (the Python KeyError case is handled at each use site). -/
def pyget : PyDict → String → Option String
  | [], _ => none
  | (k', v') :: t, k => if k' = k then some v' else pyget t k

/-- Python dict write d[k] = v: replaces the value in place when the key is
present (keeping its position), otherwise appends at the end. -/
def pyset : PyDict → String → String → PyDict
  | [], k, v => [(k, v)]
  | (k', v') :: t, k, v => if k' = k then (k', v) :: t else (k', v') :: pyset t k v

/-- Python dict built from a pair sequence (dict literal or comprehension):
left fold of pyset, so a later duplicate key overwrites the value while the
first occurrence keeps the position. -/
def pyFromPairs (l : List (String × String)) : PyDict :=
  l.foldl (fun d p => pyset d p.1 p.2) []

/-- serialize_headers from network.py: one name/value entry per map entry,
in the insertion order of the map. -/
def serialize_headers (headers : PyDict) : List Header :=
  headers.map (fun p => { name := p.1, value := p.2 })

/-- parse_headers from network.py: dict comprehension over the wire list,
folding left to right so the last entry with a given name wins. -/
def parse_headers (headers : List Header) : PyDict :=
  headers.foldl (fun d h => pyset d h.name h.value) []

/-- First-match lookup in a wire-form header list, used to observe the
headers emitted by Route.fulfill (their keys are unique). -/
def headerVal : List Header → String → Option String
  | [], _ => none
  | h :: t, k => if h.name = k then some h.value else headerVal t k

/-- Value of the last entry carrying the given name in a wire-form list,
expressed as a left fold that keeps the latest match. -/
def lastHeaderValue (l : List Header) (k : String) : Option String :=
  l.foldl (fun acc h => if h.name = k then some h.value else acc) none

/-- Python truthiness of an optional string parameter: present and nonempty. -/
def optTruthy : Option String → Bool
  | some s => s ≠ ""
  | none => false

/-- Lowercase of one ASCII character. -/
def lowerChar (c : Char) : Char :=
  if 'A' ≤ c ∧ c ≤ 'Z' then Char.ofNat (c.toNat + 32) else c

/-- Modelled from the spec: str.lower of Python (an external string
primitive), restricted to ASCII, which covers the header names of this
development. -/
def lowerString (s : String) : String := String.mk (s.data.map lowerChar)

/-- The base64 alphabet, position giving the sextet value. -/
def b64Alphabet : List Char :=
  "ABCDEFGHIJKLMNOPQRSTUVWXYZabcdefghijklmnopqrstuvwxyz0123456789+/".data

/-- Character of a sextet value. -/
def b64Char (n : Nat) : Char := b64Alphabet.getD n 'A'

/-- Modelled from the spec: base64.b64encode of the Python base64 module
(an external collaborator, the transport encoding of binary payloads):
standard base64 with padding over byte triples. -/
def b64encodeGroups : List Nat → List Char
  | [] => []
  | [a] => [b64Char (a / 4), b64Char (a % 4 * 16), '=', '=']
  | [a, b] => [b64Char (a / 4), b64Char (a % 4 * 16 + b / 16), b64Char (b % 16 * 4), '=']
  | a :: b :: c :: rest =>
      b64Char (a / 4) :: b64Char (a % 4 * 16 + b / 16) ::
      b64Char (b % 16 * 4 + c / 64) :: b64Char (c % 64) :: b64encodeGroups rest

/-- Base64 text of a byte sequence. -/
def b64encode (bs : List Nat) : String := String.mk (b64encodeGroups bs)

/-- Sextet value of an alphabet character, none for padding and for any
character outside the alphabet. -/
def b64CharVal (c : Char) : Option Nat :=
  if 'A' ≤ c ∧ c ≤ 'Z' then some (c.toNat - 65)
  else if 'a' ≤ c ∧ c ≤ 'z' then some (c.toNat - 71)
  else if '0' ≤ c ∧ c ≤ '9' then some (c.toNat + 4)
  else if c = '+' then some 62
  else if c = '/' then some 63
  else none

/-- Bytes of a sextet sequence: bit accumulation, trailing groups shorter
than eight bits are dropped. -/
def sextetsToBytes : List Nat → List Nat
  | a :: b :: c :: d :: rest =>
      (a * 4 + b / 16) :: (b % 16 * 16 + c / 4) :: (c % 4 * 64 + d) :: sextetsToBytes rest
  | [a, b, c] => [a * 4 + b / 16, b % 16 * 16 + c / 4]
  | [a, b] => [a * 4 + b / 16]
  | _ => []

/-- Modelled from the spec: base64.b64decode of the Python base64 module in
its default lenient mode: padding and characters outside the alphabet are
discarded and the remaining sextets are decoded, so a nonempty string such
as a lone newline or pure padding decodes to zero bytes. -/
def b64decode (s : String) : List Nat :=
  sextetsToBytes (s.data.filterMap b64CharVal)

/-- UTF-8 bytes of one character, from its code point. -/
def utf8EncodeChar (c : Char) : List Nat :=
  let n := c.toNat
  if n < 128 then [n]
  else if n < 2048 then [192 + n / 64, 128 + n % 64]
  else if n < 65536 then [224 + n / 4096, 128 + n / 64 % 64, 128 + n % 64]
  else [240 + n / 262144, 128 + n / 4096 % 64, 128 + n / 64 % 64, 128 + n % 64]

/-- Modelled from the spec: str.encode of Python (an external collaborator),
the UTF-8 bytes of a string. -/
def utf8Bytes (s : String) : List Nat :=
  s.data.foldl (fun acc c => acc ++ utf8EncodeChar c) []

/-- Byte length of the UTF-8 encoding of a string, the len of str.encode. -/
def utf8Len (s : String) : Nat := (utf8Bytes s).length

/-- Strict UTF-8 decoding, fuelled by the byte count (each step consumes at
least one byte): rejects bad leads, bad continuations, overlong forms,
surrogates and code points past the Unicode range, like bytes.decode. -/
def decodeUtf8Aux : Nat → List Nat → Option (List Char)
  | _, [] => some []
  | 0, _ :: _ => none
  | fuel + 1, b :: rest =>
    if b < 128 then
      (decodeUtf8Aux fuel rest).map (fun cs => Char.ofNat b :: cs)
    else if b < 194 then none
    else if b < 224 then
      match rest with
      | b1 :: rest1 =>
        if 128 ≤ b1 ∧ b1 < 192 then
          (decodeUtf8Aux fuel rest1).map (fun cs => Char.ofNat ((b - 192) * 64 + (b1 - 128)) :: cs)
        else none
      | [] => none
    else if b < 240 then
      match rest with
      | b1 :: b2 :: rest2 =>
        if 128 ≤ b1 ∧ b1 < 192 ∧ 128 ≤ b2 ∧ b2 < 192 then
          let cp := (b - 224) * 4096 + (b1 - 128) * 64 + (b2 - 128)
          if 2048 ≤ cp ∧ (cp < 55296 ∨ 57344 ≤ cp) then
            (decodeUtf8Aux fuel rest2).map (fun cs => Char.ofNat cp :: cs)
          else none
        else none
      | _ => none
    else if b < 245 then
      match rest with
      | b1 :: b2 :: b3 :: rest3 =>
        if 128 ≤ b1 ∧ b1 < 192 ∧ 128 ≤ b2 ∧ b2 < 192 ∧ 128 ≤ b3 ∧ b3 < 192 then
          let cp := (b - 240) * 262144 + (b1 - 128) * 4096 + (b2 - 128) * 64 + (b3 - 128)
          if 65536 ≤ cp ∧ cp ≤ 1114111 then
            (decodeUtf8Aux fuel rest3).map (fun cs => Char.ofNat cp :: cs)
          else none
        else none
      | _ => none
    else none

/-- Modelled from the spec: bytes.decode of Python (an external
collaborator), strict UTF-8 decoding; none models UnicodeDecodeError. -/
def decodeUtf8 (bs : List Nat) : Option String :=
  (decodeUtf8Aux bs.length bs).map (fun cs => String.mk cs)

/-- Hexadecimal digit value of a character. -/
def hexDigit (c : Char) : Option Nat :=
  if '0' ≤ c ∧ c ≤ '9' then some (c.toNat - 48)
  else if 'a' ≤ c ∧ c ≤ 'f' then some (c.toNat - 87)
  else if 'A' ≤ c ∧ c ≤ 'F' then some (c.toNat - 55)
  else none

/-- Percent-escape expansion to bytes, fuelled by the character count: a
percent sign followed by two hex digits becomes one byte, anything else
passes through as its UTF-8 bytes, like urllib.parse.unquote. -/
def pctBytesAux : Nat → List Char → List Nat
  | _, [] => []
  | 0, _ :: _ => []
  | fuel + 1, c :: rest =>
    if c = '%' then
      match rest with
      | h1 :: h2 :: rest2 =>
        match hexDigit h1, hexDigit h2 with
        | some d1, some d2 => (d1 * 16 + d2) :: pctBytesAux fuel rest2
        | _, _ => utf8EncodeChar c ++ pctBytesAux fuel rest
      | _ => utf8EncodeChar c ++ pctBytesAux fuel rest
    else utf8EncodeChar c ++ pctBytesAux fuel rest

/-- Modelled from the spec: urllib.parse.unquote (an external collaborator):
percent decoding followed by UTF-8 decoding, undecodable bytes simplified to
replacement characters. -/
def unquote (s : String) : String :=
  let bs := pctBytesAux s.data.length s.data
  match decodeUtf8 bs with
  | some t => t
  | none => String.mk (bs.map (fun b => if b < 128 then Char.ofNat b else Char.ofNat 65533))

/-- Modelled from the spec: urllib.parse.parse_qsl (an external
collaborator; the spec calls its output the map of URL-encoded query pairs):
fields split on ampersand or semicolon, fields without an equals sign or
with an empty value skipped, plus signs read as spaces, names and values
percent-decoded. -/
def parse_qsl (qs : String) : List (String × String) :=
  (qs.split (fun c => c == '&' || c == ';')).foldr
    (fun field acc =>
      match field.splitOn "=" with
      | [] => acc
      | [_] => acc
      | nm :: rest =>
        let value := String.intercalate "=" rest
        if value = "" then acc
        else (unquote (nm.replace "+" " "), unquote (value.replace "+" " ")) :: acc)
    []

/-- Local error outcomes of the Request accessors: the KeyError raised by
the dict read of the content-type header, the ParseError of json.loads, and
the UnicodeDecodeError of bytes.decode. -/
inductive PyErr where
  | keyError
  | parseError
  | unicodeError
deriving DecidableEq

/-- Initializer payload a Request is constructed from, restricted to the
fields network.py reads: the optional postData is the base64 text of the
body (absent key modelled as none), redirectedFrom is the remote identity
of the predecessor Request or absent. -/
structure Initializer where
  url : String
  resourceType : String
  method : String
  postData : Option String
  headers : List Header
  isNavigationRequest : Bool
  redirectedFrom : Option String
deriving DecidableEq

/-- Request entity: the immutable initializer plus the slots the constructor
and failure handling write. Cross-references are remote identities (guids)
into a store, so the mutation of the predecessor is an explicit store
update. -/
structure Request where
  initializer : Initializer
  redirected_from : Option String
  redirected_to : Option String
  failure_text : Option String
deriving DecidableEq

/-- Request construction over a store of existing Requests: registers the
new Request under its guid with redirected_from taken from the initializer
and redirected_to empty, and, when a predecessor is referenced, sets the
redirected_to slot of that predecessor to the new guid, leaving every other
Request and every other field of the predecessor unchanged. -/
def Request.init (store : String → Option Request) (guid : String)
    (ini : Initializer) : String → Option Request :=
  fun g =>
    if g = guid then
      some { initializer := ini, redirected_from := ini.redirectedFrom,
             redirected_to := none, failure_text := none }
    else
      match ini.redirectedFrom with
      | some p =>
        if g = p then (store g).map (fun o => { o with redirected_to := some guid })
        else store g
      | none => store g

def Request.url (r : Request) : String := r.initializer.url

def Request.resourceType (r : Request) : String := r.initializer.resourceType

def Request.method (r : Request) : String := r.initializer.method

/-- Request.headers: the wire list of the initializer parsed to a dict. -/
def Request.headers (r : Request) : PyDict := parse_headers r.initializer.headers

/-- Request.postDataBuffer: none when the initializer key is absent or the
string is empty (Python truthiness), otherwise the decoded bytes, which a
lenient decode can make empty even for a nonempty string. -/
def Request.postDataBuffer (r : Request) : Option (List Nat) :=
  match r.initializer.postData with
  | none => none
  | some s => if s = "" then none else some (b64decode s)

/-- Request.postData: none when the buffer is absent or empty (Python
truthiness of bytes), otherwise the UTF-8 text of the buffer; a decode
failure surfaces as an error. -/
def Request.postData (r : Request) : Except PyErr (Option String) :=
  match Request.postDataBuffer r with
  | none => Except.ok none
  | some data =>
    if data = [] then Except.ok none
    else
      match decodeUtf8 data with
      | some s => Except.ok (some s)
      | none => Except.error PyErr.unicodeError

/-- Structured value returned by Request.postDataJSON: either the dict of
query pairs of the urlencoded branch or a value of the JSON branch. -/
inductive PdVal (J : Type) where
  | qsl (d : PyDict)
  | json (j : J)
deriving DecidableEq

/-- Request.postDataJSON, parameterized by json.loads of the external json
module (none modelling its ParseError): returns none for an absent or empty
payload; then reads the content-type header with a plain dict lookup, so an
absent header is a KeyError, and only an empty header value yields none;
dispatches on the exact value application/x-www-form-urlencoded to
parse_qsl, and otherwise to json.loads. -/
def Request.postDataJSON {J : Type} (jsonLoads : String → Option J)
    (r : Request) : Except PyErr (Option (PdVal J)) :=
  match Request.postData r with
  | Except.error e => Except.error e
  | Except.ok none => Except.ok none
  | Except.ok (some pd) =>
    if pd = "" then Except.ok none
    else
      match pyget (Request.headers r) "content-type" with
      | none => Except.error PyErr.keyError
      | some ct =>
        if ct = "" then Except.ok none
        else if ct = "application/x-www-form-urlencoded" then
          Except.ok (some (PdVal.qsl (pyFromPairs (parse_qsl pd))))
        else
          match jsonLoads pd with
          | some j => Except.ok (some (PdVal.json j))
          | none => Except.error PyErr.parseError

def Request.isNavigationRequest (r : Request) : Bool :=
  r.initializer.isNavigationRequest

def Request.redirectedFrom (r : Request) : Option String := r.redirected_from

def Request.redirectedTo (r : Request) : Option String := r.redirected_to

/-- Failure record exposed by Request.failure. -/
structure RequestFailure where
  errorText : String
deriving DecidableEq

def Request.failure (r : Request) : Option RequestFailure :=
  r.failure_text.map (fun t => { errorText := t })

/-- Body argument of Route.fulfill and the postData argument of
Route.continue_: the isinstance dispatch distinguishes text from raw
bytes. -/
inductive BodyArg where
  | str (s : String)
  | bytes (bs : List Nat)
deriving DecidableEq

/-- Keyword arguments of Route.fulfill; none models an omitted argument
(locals_to_params of the helper module, modelled from the spec as keeping
exactly the supplied arguments, drops the omitted ones). -/
structure FulfillArgs where
  status : Option Int
  headers : Option PyDict
  body : Option BodyArg
  path : Option String
  contentType : Option String
deriving DecidableEq

/-- Modelled from the spec: mimetypes.guess_type, the provided extension
based mime-type lookup (an external collaborator), as a small table. -/
def mimetypes_guess_type (p : String) : Option String :=
  if p.endsWith ".png" then some "image/png"
  else if p.endsWith ".html" then some "text/html"
  else if p.endsWith ".txt" then some "text/plain"
  else if p.endsWith ".json" then some "application/json"
  else none

/-- Wire payload of the fulfill operation, as sent to the channel: the
path key survives only when it was supplied and not consumed by the body
resolution (the source deletes it only in its path branch). -/
structure FulfillParams where
  status : Option Int
  headers : List Header
  body : Option String
  isBase64 : Option Bool
  contentType : Option String
  path : Option String
deriving DecidableEq

/-- Outcome of the body-resolution block of Route.fulfill (lines 135 to
149): the body entry of the params, the isBase64 flag, the computed length,
and the remaining path entry. An explicit text body is kept verbatim with
isBase64 false and its UTF-8 byte length; an explicit bytes body is base64
encoded with isBase64 true; otherwise a truthy path reads the file bytes
from the filesystem fs, base64 encodes them, and removes the path entry;
otherwise nothing is set and the length stays zero. -/
structure BodyRes where
  body : Option String
  isBase64 : Option Bool
  length : Nat
  path : Option String
deriving DecidableEq

def fulfillBodyPart (fs : String → List Nat) (a : FulfillArgs) : BodyRes :=
  match a.body with
  | some (BodyArg.str s) =>
    { body := some s, isBase64 := some false, length := utf8Len s, path := a.path }
  | some (BodyArg.bytes bs) =>
    { body := some (b64encode bs), isBase64 := some true, length := bs.length, path := a.path }
  | none =>
    if optTruthy a.path then
      let fc := fs (a.path.getD "")
      { body := some (b64encode fc), isBase64 := some true, length := fc.length, path := none }
    else
      { body := none, isBase64 := none, length := 0, path := a.path }

/-- Line 151 of the source: the caller headers (empty dict when omitted)
rebuilt with every key lowercased, later duplicates overwriting earlier
ones. -/
def lowerHeaders (a : FulfillArgs) : PyDict :=
  pyFromPairs ((a.headers.getD []).map (fun p => (lowerString p.1, p.2)))

/-- Lines 152 to 157 of the source: a truthy contentType argument writes
the content-type entry; otherwise a truthy path writes the guessed type,
falling back to application/octet-stream; otherwise the lowercased caller
headers pass through. -/
def fulfillCT (a : FulfillArgs) : PyDict :=
  let headers1 := lowerHeaders a
  if optTruthy a.contentType then
    pyset headers1 "content-type" (a.contentType.getD "")
  else if optTruthy a.path then
    pyset headers1 "content-type"
      ((mimetypes_guess_type (a.path.getD "")).getD "application/octet-stream")
  else headers1

/-- Lines 158 and 159 of the source: a content-length entry holding the
computed length is added when the length is nonzero and no content-length
key is present (the dict was lowercased, so this check is case-insensitive
with respect to the caller input). -/
def fulfillHeaders (fs : String → List Nat) (a : FulfillArgs) : PyDict :=
  if (fulfillBodyPart fs a).length ≠ 0 ∧ pyget (fulfillCT a) "content-length" = none then
    pyset (fulfillCT a) "content-length" (toString (fulfillBodyPart fs a).length)
  else fulfillCT a

/-- Route.fulfill: the wire payload built from the arguments, with fs
modelling the filesystem read of a path argument. -/
def Route.fulfill (fs : String → List Nat) (a : FulfillArgs) : FulfillParams :=
  { status := a.status
    headers := serialize_headers (fulfillHeaders fs a)
    body := (fulfillBodyPart fs a).body
    isBase64 := (fulfillBodyPart fs a).isBase64
    contentType := a.contentType
    path := (fulfillBodyPart fs a).path }

/-- Route.abort: the wire payload is just the optional errorCode. -/
def Route.abort (errorCode : Option String) : Option String := errorCode

/-- Wire payload of the continue operation. -/
structure ContinueParameters where
  method : Option String
  headers : Option (List Header)
  postData : Option String
deriving DecidableEq

/-- Route.continue_: a sparse patch of overrides; a falsy method or headers
argument is omitted, a text postData is UTF-8 encoded then base64 encoded,
a bytes postData is base64 encoded, both via isinstance so an empty text
still produces an entry. -/
def Route.continue_ (method : Option String) (headers : Option PyDict)
    (postData : Option BodyArg) : ContinueParameters :=
  { method := match method with
      | some m => if m = "" then none else some m
      | none => none
    headers := match headers with
      | some d => if d = [] then none else some (serialize_headers d)
      | none => none
    postData := match postData with
      | some (BodyArg.str s) => some (b64encode (utf8Bytes s))
      | some (BodyArg.bytes bs) => some (b64encode bs)
      | none => none }

/-- State of the remote channel of one entity: the ordered log of the
operations it was asked to send. -/
structure Chan where
  sent : List String
deriving DecidableEq

/-- One channel.send call: appends the operation to the log. -/
def Channel.send (st : Chan) (op : String) : Chan := { sent := st.sent ++ [op] }

/-- A disposition action invoked on a Route, with its arguments. -/
inductive RouteAction where
  | abort (errorCode : Option String)
  | fulfill (a : FulfillArgs)
  | continue_ (method : Option String) (headers : Option PyDict) (postData : Option BodyArg)
deriving DecidableEq

/-- Remote operation name of a disposition action. -/
def RouteAction.opName : RouteAction → String
  | RouteAction.abort _ => "abort"
  | RouteAction.fulfill _ => "fulfill"
  | RouteAction.continue_ _ _ _ => "continue"

/-- Invocation of a disposition action on a Route: the source Route holds
no disposition state and performs no local check, so every action, whatever
ran before, unconditionally issues exactly one channel.send of its
operation (with the payload computed by Route.abort, Route.fulfill or
Route.continue_) and surfaces no local error. -/
def Route.run (st : Chan) (act : RouteAction) : Chan :=
  Channel.send st act.opName

/-- Initializer snapshot of a Response, restricted to the fields the source
reads. -/
structure RespInit where
  url : String
  status : Int
  statusText : String
  headers : List Header
deriving DecidableEq

/-- Response entity: just its immutable snapshot; the body lives remotely. -/
structure Response where
  initializer : RespInit
deriving DecidableEq

def Response.url (r : Response) : String := r.initializer.url

def Response.status (r : Response) : Int := r.initializer.status

def Response.statusText (r : Response) : String := r.initializer.statusText

/-- Response.ok: status zero or in the 200 to 299 range. -/
def Response.ok (r : Response) : Bool :=
  r.initializer.status = 0 ∨ (200 ≤ r.initializer.status ∧ r.initializer.status ≤ 299)

def Response.headers (r : Response) : PyDict := parse_headers r.initializer.headers

/-- Response.body: sends the body operation on the channel on every call
(the source keeps no local cache) and base64 decodes the reply; reply
models the remote side, which serves the payload from its own cache, hence
as a function of the operation alone. -/
def Response.body (_r : Response) (reply : String → String) (st : Chan) :
    List Nat × Chan :=
  (b64decode (reply "body"), Channel.send st "body")

/-- Modelled from the spec: the content-type resolution order as the claim
states it: an explicit contentType argument wins (and overwrites any caller
supplied content-type header); otherwise, with a path given, the extension
based guess is used with application/octet-stream as fallback; otherwise
nothing is derived and the content-type entry of the (lowercased) caller
headers passes through unchanged. An empty-string argument counts as not
supplied, following Python truthiness of optional string parameters. -/
def spec_resolvedContentType (a : FulfillArgs) : Option String :=
  if optTruthy a.contentType then a.contentType
  else if optTruthy a.path then
    some ((mimetypes_guess_type (a.path.getD "")).getD "application/octet-stream")
  else pyget (lowerHeaders a) "content-type"

/-- Filesystem fixture with empty files. -/
def fsEmpty : String → List Nat := fun _ => []

/-- Fulfill call with a text body. -/
def fulfillHelloArgs : FulfillArgs :=
  { status := none, headers := none, body := some (BodyArg.str "hello"),
    path := none, contentType := none }

/-- Fulfill call with a two-byte raw body. -/
def fulfillTwoByteArgs : FulfillArgs :=
  { status := none, headers := none, body := some (BodyArg.bytes [1, 2]),
    path := none, contentType := none }

/-- Fulfill call supplying only headers. -/
def onlyHeadersArgs (d : PyDict) : FulfillArgs :=
  { status := none, headers := some d, body := none, path := none,
    contentType := none }

/-- Fulfill call with a mixed-case caller header and nothing else. -/
def fulfillXFooArgs : FulfillArgs := onlyHeadersArgs [("X-Foo", "bar")]

/-- Fulfill call with a present but empty text body. -/
def fulfillEmptyBodyArgs : FulfillArgs :=
  { status := none, headers := none, body := some (BodyArg.str ""),
    path := none, contentType := none }

/-- Initializer fixture builder: a POST request with the given base64 body
entry and no headers. -/
def mkXhrInit (u : String) (pd : Option String) : Initializer :=
  { url := u, resourceType := "xhr", method := "POST", postData := pd,
    headers := [], isNavigationRequest := false, redirectedFrom := none }

/-- Request fixture builder over mkXhrInit. -/
def mkXhrReq (u : String) (pd : Option String) : Request :=
  { initializer := mkXhrInit u pd, redirected_from := none,
    redirected_to := none, failure_text := none }

/-- Request fixture: a post body (base64 of a two-byte JSON object) but no
content-type header at all. -/
def reqNoCT : Request := mkXhrReq "http://x/a" (some "e30=")

/-- Request fixture with no post data at all. -/
def reqEmptyPd : Request := mkXhrReq "http://x/b" none

/-- Request fixture whose initializer carries a nonempty base64 string that
decodes to zero bytes (a lone newline, which the lenient decoder discards). -/
def reqNL : Request := mkXhrReq "http://x/c" (some "\n")

/-- Initializer fixture of a predecessor request. -/
def iniA : Initializer :=
  { url := "http://a/", resourceType := "document", method := "GET",
    postData := none, headers := [], isNavigationRequest := true,
    redirectedFrom := none }

/-- Predecessor request fixture, registered under guid a. -/
def reqA : Request :=
  { initializer := iniA, redirected_from := none, redirected_to := none,
    failure_text := none }

/-- Initializer fixture of a successor request redirected from guid a. -/
def iniB : Initializer :=
  { url := "http://b/", resourceType := "document", method := "GET",
    postData := none, headers := [], isNavigationRequest := true,
    redirectedFrom := some "a" }

/-- Store fixture holding only the predecessor request. -/
def store0 : String → Option Request := fun g => if g = "a" then some reqA else none

/-- Response initializer fixture. -/
def respInit0 : RespInit :=
  { url := "http://x/d", status := 200, statusText := "OK", headers := [] }

/-- Response fixture. -/
def resp0 : Response := { initializer := respInit0 }

/- Helper lemmas about the Python dict model. -/

theorem pyget_pyset (d : PyDict) (k k' v : String) :
    pyget (pyset d k v) k' = if k = k' then some v else pyget d k' := by
  induction d with
  | nil => by_cases h : k = k' <;> simp [pyset, pyget, h]
  | cons p t ih =>
    obtain ⟨a, b⟩ := p
    by_cases hak : a = k
    · subst hak
      by_cases h : a = k' <;> simp [pyset, pyget, h]
    · by_cases h : a = k'
      · subst h
        have : k ≠ a := fun hk => hak hk.symm
        simp [pyset, pyget, hak, this]
      · simp [pyset, pyget, hak, h, ih]

theorem pyset_of_pyget_none (d : PyDict) (k v : String) (h : pyget d k = none) :
    pyset d k v = d ++ [(k, v)] := by
  induction d with
  | nil => simp [pyset]
  | cons p t ih =>
    obtain ⟨a, b⟩ := p
    by_cases hak : a = k
    · simp [pyget, hak] at h
    · simp [pyget, hak] at h
      simp [pyset, hak, ih h]

theorem pyget_append (d1 d2 : PyDict) (k : String) :
    pyget (d1 ++ d2) k =
      match pyget d1 k with
      | some v => some v
      | none => pyget d2 k := by
  induction d1 with
  | nil => simp [pyget]
  | cons p t ih =>
    obtain ⟨a, b⟩ := p
    by_cases h : a = k <;> simp [pyget, h, ih]

theorem foldl_pyset_append (l : List (String × String)) (acc : PyDict)
    (hacc : ∀ p ∈ l, pyget acc p.1 = none) (hnd : (l.map Prod.fst).Nodup) :
    l.foldl (fun d p => pyset d p.1 p.2) acc = acc ++ l := by
  induction l generalizing acc with
  | nil => simp
  | cons p t ih =>
    obtain ⟨k, v⟩ := p
    simp only [List.map_cons, List.nodup_cons] at hnd
    simp only [List.foldl_cons]
    rw [pyset_of_pyget_none _ _ _ (hacc (k, v) (List.mem_cons_self _ _))]
    rw [ih (acc ++ [(k, v)]) ?_ hnd.2]
    · simp
    · intro q hq
      rw [pyget_append, hacc q (List.mem_cons_of_mem _ hq)]
      have hqk : q.1 ≠ k := by
        intro he
        exact hnd.1 (he ▸ List.mem_map_of_mem Prod.fst hq)
      simp [pyget]
      exact fun he => hqk he.symm

theorem headerVal_serialize (d : PyDict) (k : String) :
    headerVal (serialize_headers d) k = pyget d k := by
  induction d with
  | nil => rfl
  | cons p t ih =>
    simp only [serialize_headers, List.map_cons] at ih ⊢
    by_cases h : p.1 = k <;> simp [headerVal, pyget, h, ih]

theorem pyget_parse_aux (l : List Header) (d : PyDict) (k : String) :
    pyget (l.foldl (fun d h => pyset d h.name h.value) d) k =
      l.foldl (fun acc h => if h.name = k then some h.value else acc) (pyget d k) := by
  induction l generalizing d with
  | nil => rfl
  | cons h t ih =>
    simp only [List.foldl_cons]
    rw [ih]
    congr 1
    rw [pyget_pyset]

theorem pyget_fulfillCT_content_type (a : FulfillArgs) :
    pyget (fulfillCT a) "content-type" = spec_resolvedContentType a := by
  unfold fulfillCT spec_resolvedContentType
  by_cases h1 : optTruthy a.contentType = true
  · cases hct : a.contentType with
    | none => rw [hct] at h1; simp [optTruthy] at h1
    | some s =>
      rw [hct] at h1
      simp [hct, h1, pyget_pyset]
  · by_cases h2 : optTruthy a.path = true <;> simp [h1, h2, pyget_pyset]

theorem pyget_fulfillCT_content_length (a : FulfillArgs) :
    pyget (fulfillCT a) "content-length" = pyget (lowerHeaders a) "content-length" := by
  unfold fulfillCT
  have hne : ("content-type" : String) ≠ "content-length" := by decide
  by_cases h1 : optTruthy a.contentType = true
  · simp [h1, pyget_pyset, hne]
  · by_cases h2 : optTruthy a.path = true <;> simp [h1, h2, pyget_pyset, hne]

theorem pyget_fulfillHeaders_content_type (fs : String → List Nat) (a : FulfillArgs) :
    pyget (fulfillHeaders fs a) "content-type" = pyget (fulfillCT a) "content-type" := by
  unfold fulfillHeaders
  have hne : ("content-length" : String) ≠ "content-type" := by decide
  split
  · rw [pyget_pyset]
    simp [hne]
  · rfl

theorem pyget_fulfillHeaders_content_length_add (fs : String → List Nat)
    (a : FulfillArgs) (hlen : (fulfillBodyPart fs a).length ≠ 0)
    (hcl : pyget (lowerHeaders a) "content-length" = none) :
    pyget (fulfillHeaders fs a) "content-length" =
      some (toString (fulfillBodyPart fs a).length) := by
  unfold fulfillHeaders
  have h2 : pyget (fulfillCT a) "content-length" = none := by
    rw [pyget_fulfillCT_content_length]; exact hcl
  rw [if_pos ⟨hlen, h2⟩, pyget_pyset]
  simp

/-- C1 counterexample: the claim says a second disposition action on a
Route raises ProtocolViolation locally, before any remote call is issued;
but after an abort has completed, a second abort issues a second remote
abort call (the log grows to two operations instead of staying at one) and
the embedding is total, surfacing no local error. -/
theorem route_second_disposition_cex :
    Route.run (Route.run { sent := [] } (RouteAction.abort none))
        (RouteAction.abort none) = { sent := ["abort", "abort"] } ∧
      (["abort", "abort"] : List String) ≠ ["abort"] :=
  ⟨rfl, by decide⟩

/-- C1 amended: the core keeps no disposition state and enforces nothing
locally: every disposition action, whatever ran before on the same Route,
unconditionally issues exactly one remote call of its operation and raises
no local error; rejection of a second call is left to the remote side. -/
theorem route_no_local_guard :
    ∀ (st : Chan) (act : RouteAction),
      Route.run st act = { sent := st.sent ++ [act.opName] } :=
  fun _ _ => rfl

/-- C6 counterexample: the claim says the result of body is cached per
Response instance so repeated calls do not repeat the remote round trip;
but two calls to body on the same Response send the body operation twice. -/
theorem response_body_refetch_cex :
    ((resp0.body (fun _ => "") ((resp0.body (fun _ => "") { sent := [] }).2)).2).sent =
        ["body", "body"] ∧
      (["body", "body"] : List String) ≠ ["body"] :=
  ⟨rfl, by decide⟩

/-- C6 amended: body is not cached: every call issues exactly one remote
round trip; re-fetching is nevertheless safe and returns the same payload,
the remote side serving it from its own cache. -/
theorem response_body_uncached_amended :
    ∀ (r : Response) (reply : String → String) (st : Chan),
      (r.body reply st).2.sent = st.sent ++ ["body"] ∧
        (r.body reply ((r.body reply st).2)).1 = (r.body reply st).1 :=
  fun _ _ _ => ⟨rfl, rfl⟩

/-- C8: for every header mapping with unique keys, parsing the serialized
wire list gives back the mapping, and serialization produces one name/value
entry per map entry in the insertion order of the map. -/
theorem serialize_parse_roundtrip (M : PyDict) (h : (M.map Prod.fst).Nodup) :
    parse_headers (serialize_headers M) = M ∧
      serialize_headers M = M.map (fun p => { name := p.1, value := p.2 }) := by
  constructor
  · unfold parse_headers serialize_headers
    rw [List.foldl_map]
    show M.foldl (fun d p => pyset d p.1 p.2) [] = M
    rw [foldl_pyset_append M [] (fun p _ => rfl) h]
    simp
  · rfl

/-- C8 witness: the round trip at a concrete two-entry mapping. -/
theorem serialize_parse_roundtrip_witness :
    parse_headers (serialize_headers [("b", "2"), ("A", "1")]) =
      [("b", "2"), ("A", "1")] :=
  (serialize_parse_roundtrip [("b", "2"), ("A", "1")] (by decide)).1

/-- C9: parse_headers folds the wire list left to right so that among
entries sharing exactly the same name the last value wins; in particular
the list of two entries named A collapses to the second one. -/
theorem parse_headers_last_wins :
    (∀ (l : List Header) (k : String),
        pyget (parse_headers l) k = lastHeaderValue l k) ∧
      parse_headers [{ name := "A", value := "1" }, { name := "A", value := "2" }] =
        [("A", "2")] := by
  constructor
  · intro l k
    unfold parse_headers lastHeaderValue
    rw [pyget_parse_aux]
    rfl
  · rfl

/-- C2: the claim says postDataJSON returns absent when no content-type
header is present; but the source reads the header with a plain dict
subscript, so a Request carrying a payload and no content-type header makes
postDataJSON raise KeyError instead of returning absent (the guard on the
next source line only handles a present-but-empty header value, showing the
absent case was meant to yield absent). This theorem evaluates the
embedding at that failing input. -/
theorem postDataJSON_missing_content_type_keyerror :
    Request.postDataJSON (fun _ => (none : Option Unit)) reqNoCT =
      Except.error PyErr.keyError := rfl

/-- C10 counterexample: the claim says a payload decoding to zero bytes
makes postDataBuffer return absent; but for a nonempty base64 string that
decodes to zero bytes (a lone newline) postDataBuffer returns a present
empty buffer, not absent. -/
theorem postDataBuffer_empty_decode_cex :
    Request.postDataBuffer reqNL = some [] ∧
      some ([] : List Nat) ≠ (none : Option (List Nat)) :=
  ⟨rfl, by decide⟩

/-- C10 amended: a missing or empty base64 string makes postDataBuffer
absent; whenever the buffer is absent or empty, postData and postDataJSON
are absent (so at those two accessors an empty body is indistinguishable
from a missing one); but a nonempty base64 string decoding to zero bytes
leaves postDataBuffer present as an empty buffer. -/
theorem post_data_empty_amended :
    ∀ r : Request,
      ((r.initializer.postData = none ∨ r.initializer.postData = some "") →
          r.postDataBuffer = none) ∧
        ((r.postDataBuffer = none ∨ r.postDataBuffer = some []) →
          r.postData = Except.ok none ∧
            ∀ (J : Type) (jsonLoads : String → Option J),
              Request.postDataJSON jsonLoads r = Except.ok none) ∧
        ∀ s, r.initializer.postData = some s → s ≠ "" → b64decode s = [] →
          r.postDataBuffer = some [] := by
  intro r
  refine ⟨?_, ?_, ?_⟩
  · rintro (h | h) <;> simp [Request.postDataBuffer, h]
  · intro h
    have hpd : r.postData = Except.ok none := by
      rcases h with h | h <;> simp [Request.postData, h]
    exact ⟨hpd, fun J jl => by simp [Request.postDataJSON, hpd]⟩
  · intro s hs hne hdec
    simp [Request.postDataBuffer, hs, hne, hdec]

/-- C10 witness: the amended statement applied at a Request without post
data and at the Request whose base64 string decodes to zero bytes. -/
theorem post_data_empty_amended_witness :
    Request.postDataBuffer reqEmptyPd = none ∧
      Request.postData reqEmptyPd = Except.ok none ∧
      Request.postDataJSON (fun _ => (none : Option Unit)) reqEmptyPd =
        Except.ok none ∧
      Request.postDataBuffer reqNL = some [] := by
  have h := post_data_empty_amended reqEmptyPd
  have hb : Request.postDataBuffer reqEmptyPd = none := h.1 (Or.inl rfl)
  have h2 := h.2.1 (Or.inl hb)
  have h3 := post_data_empty_amended reqNL
  exact ⟨hb, h2.1, h2.2 Unit (fun _ => none), h3.2.2 "\n" rfl (by decide) rfl⟩

/-- C7: constructing request B with predecessor A links both directions:
afterwards B carries redirected_from A, A carries redirected_to B while all
its other fields (its initializer, its redirected_from, its failure slot)
are unchanged, every unrelated store entry is untouched, and a Request
constructed without a predecessor has absent redirected_from and
redirected_to. -/
theorem request_redirect_link :
    ∀ (store : String → Option Request) (aG bG : String) (aObj : Request)
      (ini : Initializer),
      store aG = some aObj → aG ≠ bG → ini.redirectedFrom = some aG →
      (Request.init store bG ini bG =
          some { initializer := ini, redirected_from := some aG,
                 redirected_to := none, failure_text := none }) ∧
        Request.init store bG ini aG = some { aObj with redirected_to := some bG } ∧
        (∀ g, g ≠ aG → g ≠ bG → Request.init store bG ini g = store g) ∧
        ∀ (st2 : String → Option Request) (g2 : String) (ini2 : Initializer),
          ini2.redirectedFrom = none →
          Request.init st2 g2 ini2 g2 =
            some { initializer := ini2, redirected_from := none,
                   redirected_to := none, failure_text := none } := by
  intro store aG bG aObj ini hA hne hfrom
  refine ⟨?_, ?_, ?_, ?_⟩
  · simp [Request.init, hfrom]
  · simp [Request.init, hfrom, hne, hA]
  · intro g hga hgb
    simp [Request.init, hfrom, hga, hgb]
  · intro st2 g2 ini2 h2
    simp [Request.init, h2]

/-- C7 witness: the linking applied at a concrete store holding one
predecessor under guid a and an initializer referencing it. -/
theorem request_redirect_link_witness :
    Request.init store0 "b" iniB "b" =
        some { initializer := iniB, redirected_from := some "a",
               redirected_to := none, failure_text := none } ∧
      Request.init store0 "b" iniB "a" =
        some { reqA with redirected_to := some "b" } := by
  have h := request_redirect_link store0 "a" "b" reqA iniB rfl (by decide) rfl
  exact ⟨h.1, h.2.1⟩

/-- C3 counterexample: the claim says header-name case is preserved, the
sole exception being a case-insensitive comparison inside fulfill; but
fulfill rewrites every caller-supplied header name to lowercase: a caller
header named X-Foo is emitted as x-foo. -/
theorem fulfill_header_case_cex :
    (Route.fulfill fsEmpty fulfillXFooArgs).headers =
        [{ name := "x-foo", value := "bar" }] ∧
      ({ name := "x-foo", value := "bar" } : Header) ≠
        { name := "X-Foo", value := "bar" } :=
  ⟨by decide, by decide⟩

/-- C3 amended: header names are case-sensitive and case-preserved in every
operation except fulfill: continue_ serializes the caller mapping verbatim,
serialize_headers keeps every name, parse_headers keeps names differing only
in case as distinct keys, while fulfill rebuilds the caller headers with
every name lowercased (which is also what makes its content-length and
content-type handling insensitive to the case of the caller input). -/
theorem header_case_handling_amended :
    (∀ d : PyDict,
        (Route.continue_ none (some d) none).headers =
          if d = [] then none else some (serialize_headers d)) ∧
      (∀ M : PyDict, (serialize_headers M).map Header.name = M.map Prod.fst) ∧
      parse_headers [{ name := "A", value := "1" }, { name := "a", value := "2" }] =
        [("A", "1"), ("a", "2")] ∧
      ∀ (fs : String → List Nat) (d : PyDict),
        (Route.fulfill fs (onlyHeadersArgs d)).headers =
          serialize_headers (pyFromPairs (d.map (fun p => (lowerString p.1, p.2)))) := by
  refine ⟨fun d => rfl, fun M => ?_, rfl, fun fs d => ?_⟩
  · simp [serialize_headers]
  · show serialize_headers (fulfillHeaders fs _) = _
    unfold fulfillHeaders
    rw [if_neg]
    · rfl
    · intro hc
      exact hc.1 rfl

/-- C4: the content-type emitted by fulfill follows the resolution order of
the claim: a (truthy) explicit contentType argument wins over any
caller-supplied content-type header; otherwise a (truthy) path argument
yields the extension-based guess with fallback application/octet-stream;
otherwise fulfill derives nothing and the caller headers pass through. -/
theorem fulfill_content_type_resolution :
    ∀ (fs : String → List Nat) (a : FulfillArgs),
      headerVal (Route.fulfill fs a).headers "content-type" =
        spec_resolvedContentType a := by
  intro fs a
  show headerVal (serialize_headers (fulfillHeaders fs a)) "content-type" = _
  rw [headerVal_serialize, pyget_fulfillHeaders_content_type,
    pyget_fulfillCT_content_type]

/-- C5 counterexample: the claim says a content-length equal to the
resolved body byte length is added whenever the caller supplied none; but
for a present empty text body (resolved byte length zero, no caller
content-length) fulfill adds no content-length entry at all. -/
theorem fulfill_content_length_cex :
    (Route.fulfill fsEmpty fulfillEmptyBodyArgs).body = some "" ∧
      headerVal (Route.fulfill fsEmpty fulfillEmptyBodyArgs).headers
        "content-length" = none :=
  ⟨rfl, rfl⟩

/-- C5 amended: a text body is transmitted verbatim with isBase64 false and
a bytes body is base64-encoded with isBase64 true (an explicit body taking
priority over path, whose bytes are read and base64-encoded only when no
body is given); a content-length equal to the resolved body byte length is
added whenever that length is nonzero and the caller supplied no
content-length header (compared against the lowercased caller keys). -/
theorem fulfill_body_encoding :
    ∀ (fs : String → List Nat) (a : FulfillArgs),
      (∀ s, a.body = some (BodyArg.str s) →
        (Route.fulfill fs a).body = some s ∧
          (Route.fulfill fs a).isBase64 = some false ∧
          (utf8Len s ≠ 0 → pyget (lowerHeaders a) "content-length" = none →
            headerVal (Route.fulfill fs a).headers "content-length" =
              some (toString (utf8Len s)))) ∧
      (∀ bs, a.body = some (BodyArg.bytes bs) →
        (Route.fulfill fs a).body = some (b64encode bs) ∧
          (Route.fulfill fs a).isBase64 = some true ∧
          (bs.length ≠ 0 → pyget (lowerHeaders a) "content-length" = none →
            headerVal (Route.fulfill fs a).headers "content-length" =
              some (toString bs.length))) ∧
      (a.body = none → optTruthy a.path = true →
        (Route.fulfill fs a).body = some (b64encode (fs (a.path.getD ""))) ∧
          (Route.fulfill fs a).isBase64 = some true ∧
          ((fs (a.path.getD "")).length ≠ 0 →
            pyget (lowerHeaders a) "content-length" = none →
            headerVal (Route.fulfill fs a).headers "content-length" =
              some (toString (fs (a.path.getD "")).length))) := by
  intro fs a
  refine ⟨?_, ?_, ?_⟩
  · intro s hb
    have hlen : (fulfillBodyPart fs a).length = utf8Len s := by
      simp [fulfillBodyPart, hb]
    refine ⟨by simp [Route.fulfill, fulfillBodyPart, hb],
      by simp [Route.fulfill, fulfillBodyPart, hb], ?_⟩
    intro h0 hcl
    show headerVal (serialize_headers (fulfillHeaders fs a)) "content-length" = _
    rw [headerVal_serialize,
      pyget_fulfillHeaders_content_length_add fs a (by rw [hlen]; exact h0) hcl, hlen]
  · intro bs hb
    have hlen : (fulfillBodyPart fs a).length = bs.length := by
      simp [fulfillBodyPart, hb]
    refine ⟨by simp [Route.fulfill, fulfillBodyPart, hb],
      by simp [Route.fulfill, fulfillBodyPart, hb], ?_⟩
    intro h0 hcl
    show headerVal (serialize_headers (fulfillHeaders fs a)) "content-length" = _
    rw [headerVal_serialize,
      pyget_fulfillHeaders_content_length_add fs a (by rw [hlen]; exact h0) hcl, hlen]
  · intro hb hp
    have hlen : (fulfillBodyPart fs a).length = (fs (a.path.getD "")).length := by
      simp [fulfillBodyPart, hb, hp]
    refine ⟨by simp [Route.fulfill, fulfillBodyPart, hb, hp],
      by simp [Route.fulfill, fulfillBodyPart, hb, hp], ?_⟩
    intro h0 hcl
    show headerVal (serialize_headers (fulfillHeaders fs a)) "content-length" = _
    rw [headerVal_serialize,
      pyget_fulfillHeaders_content_length_add fs a (by rw [hlen]; exact h0) hcl, hlen]

/-- C5 witness: a text body hello yields isBase64 false and derived
content-length 5; a two-byte raw body yields isBase64 true and derived
content-length 2. -/
theorem fulfill_body_encoding_witness :
    (Route.fulfill fsEmpty fulfillHelloArgs).body = some "hello" ∧
      (Route.fulfill fsEmpty fulfillHelloArgs).isBase64 = some false ∧
      headerVal (Route.fulfill fsEmpty fulfillHelloArgs).headers "content-length" =
        some "5" ∧
      (Route.fulfill fsEmpty fulfillTwoByteArgs).isBase64 = some true ∧
      headerVal (Route.fulfill fsEmpty fulfillTwoByteArgs).headers "content-length" =
        some "2" := by
  have h1 := (fulfill_body_encoding fsEmpty fulfillHelloArgs).1 "hello" rfl
  have h2 := (fulfill_body_encoding fsEmpty fulfillTwoByteArgs).2.1 [1, 2] rfl
  have e1 := h1.2.2 (by decide) rfl
  have e2 := h2.2.2 (by decide) rfl
  rw [show toString (utf8Len "hello") = "5" from rfl] at e1
  rw [show toString (List.length [1, 2]) = "2" from rfl] at e2
  exact ⟨h1.1, h1.2.1, e1, h2.2.1, e2⟩

end PW
